import Mathlib

/-!
Shallow embedding of the kernel-wasm execution engine (src/vm.h and the
uapi dispatch file) and proofs about its specification claims.

Machine integers are modelled as `Nat` with explicit reduction modulo
`2 ^ 64` where `unsigned long` arithmetic can wrap; `uint32_t` inputs are
constrained by hypotheses `< 2 ^ 32` where a theorem needs them.
Pointers are modelled as their numeric addresses.
-/

namespace KernelWasm

/-- Size of the `unsigned long` value space on the target (64-bit). -/
def ULONG_CARD : Nat := 2 ^ 64

/-- Kernel error number `EINVAL` (invalid argument). -/
def EINVAL : Int := 22

/-- Kernel error number `EFAULT` (bad address). -/
def EFAULT : Int := 14

/-- Model of `struct local_memory` from src/vm.h: a base address and a
bound (usable length).  The `unused` pointer field is irrelevant to the
claims and omitted. -/
structure local_memory where
  base : Nat
  bound : Nat
  deriving DecidableEq, Repr

/-- Model of the part of `struct vmctx` (src/vm.h) that
`vmctx_get_memory_slice` reads: the `memories` field, a possibly-null
pointer to the (first) local memory.  `none` models a NULL `memories`
pointer; `some mem` models a valid pointer whose first entry points to
`mem`. -/
structure vmctx where
  memories : Option local_memory
  deriving DecidableEq, Repr

/-- Model of `vmctx_get_memory_slice` from src/vm.h:

    if(ctx->memories == NULL) return NULL;
    mem = *ctx->memories;
    begin = (unsigned long) mem->base + (unsigned long) offset;
    end = begin + (unsigned long) len;
    real_end = (unsigned long) mem->base + (unsigned long) mem->bound;
    if(end < begin || begin < (unsigned long) mem->base
       || begin >= real_end || end > real_end) return NULL;
    return (uint8_t *) begin;

All `unsigned long` additions are taken modulo `2 ^ 64`; `none` models a
NULL return and `some p` a non-null pointer with address `p`. -/
def vmctx_get_memory_slice (ctx : vmctx) (offset len : Nat) : Option Nat :=
  match ctx.memories with
  | none => none
  | some mem =>
    let begin_addr := (mem.base % ULONG_CARD + offset) % ULONG_CARD
    let end_addr := (begin_addr + len) % ULONG_CARD
    let real_end := (mem.base % ULONG_CARD + mem.bound) % ULONG_CARD
    if end_addr < begin_addr ∨ begin_addr < mem.base % ULONG_CARD ∨
        begin_addr ≥ real_end ∨ end_addr > real_end then
      none
    else
      some begin_addr

/-- Model of `round_up_to_page_size` from src/vm.h:
`return (x + 4095ul) & (~4095ul);` with 64-bit `unsigned long`
arithmetic.  `~4095ul = 2 ^ 64 - 4096`. -/
def round_up_to_page_size (x : Nat) : Nat :=
  ((x + 4095) % ULONG_CARD) &&& (ULONG_CARD - 4096)

/-- Model of `struct privileged_session` from src/vm.h: the ready flag
(an `int`, 0 = unloaded, set to 1 on successful load) together with the
embedded execution engine.  The engine's representation is opaque to the
uapi dispatch code modelled here, so the session is parametric in the
engine type `EE`. -/
structure privileged_session (EE : Type) where
  ready : Nat
  ee : EE
  deriving Repr

/-- Model of `init_privileged_session` from src/vm.h: sets `ready` to 0
and leaves the engine storage as it was. -/
def init_privileged_session {EE : Type} (sess : privileged_session EE) :
    privileged_session EE :=
  { sess with ready := 0 }

/-- Model of `handle_wasm_load_code` from the uapi dispatch file.
`init_execution_engine` is declared in src/vm.h but defined outside the
given sources, so it is passed in as a function from the request and the
engine storage to the returned error code and the (possibly partially
written) engine storage.  `copy_fail` models `copy_from_user` failing.
The result is the ioctl return value paired with the updated session:

    if(sess->ready) { err = -EINVAL; goto fail; }
    if(copy_from_user(...)) { err = -EFAULT; goto fail; }
    if((err = init_execution_engine(&req, &sess->ee)) < 0) goto fail;
    sess->ready = 1;
    return 0; -/
def handle_wasm_load_code {EE Req : Type}
    (init_execution_engine : Req → EE → Int × EE)
    (copy_fail : Bool) (req : Req) (sess : privileged_session EE) :
    Int × privileged_session EE :=
  if sess.ready ≠ 0 then
    (-EINVAL, sess)
  else if copy_fail then
    (-EFAULT, sess)
  else
    let r := init_execution_engine req sess.ee
    if r.1 < 0 then
      (r.1, { sess with ee := r.2 })
    else
      (0, { ready := 1, ee := r.2 })

/-- Model of the fields of `struct run_code_request` that the given
sources read (`req->entry_offset` and `req->param_count`; the struct
itself is declared in request.h, outside the given sources, and these
are the fields the spec's Run input lists). -/
structure run_code_request where
  entry_offset : Nat
  param_count : Nat
  deriving DecidableEq, Repr

/-- Observable events of the runner task body, in program order. -/
inductive runner_event where
  | sig_started
  | call_entry (offset : Nat)
  | store_result (v : Nat)
  | sig_finished
  deriving DecidableEq, Repr

/-- Model of `code_runner_inner` from the uapi dispatch file as the
sequence of observable events the task body performs, in order:

    up(&task->sem);                      // sig_started
    if(task->req->param_count != 0) {
        printk("invalid param count");   // no call, no second up
    } else {
        task->ret = ee_call0(task->ee, task->req->entry_offset);
        up(&task->sem);                  // sig_finished
    }

`ee_call0` is only declared in the given sources, so its return value is
the oracle parameter `call_result`; `call_entry` happens when the call
is made and `store_result` when its value is written to `task->ret`. -/
def code_runner_inner (req : run_code_request) (call_result : Nat) :
    List runner_event :=
  [runner_event.sig_started] ++
    (if req.param_count ≠ 0 then
      []
    else
      [runner_event.call_entry req.entry_offset,
       runner_event.store_result call_result,
       runner_event.sig_finished])

/-- Environment choices of one execution of `handle_wasm_run_code`: the
outcomes of the fallible external primitives the code calls.
`interrupted` is true when the controller's interruptible wait on the
"finished" handshake is interrupted by a signal before a "finished"
release has been consumed; `callee_returns` is true when the entry-point
call performed by the runner returns (false models sandboxed code that
never returns, e.g. an infinite loop). -/
structure run_env where
  copy_fail : Bool
  kthread_fail : Bool
  interrupted : Bool
  callee_returns : Bool
  deriving DecidableEq, Repr

/-- Outcome of one execution of `handle_wasm_run_code` as seen by the
caller: either the ioctl returns a value, or the controller blocks
forever (its wait is never signalled and never interrupted). -/
inductive run_outcome where
  | returned (code : Int)
  | blocks_forever
  deriving DecidableEq, Repr

/-- Model of repeatedly calling `down_trylock` until it fails,
`while(down_trylock(&task.sem) == 0);` — each successful trylock
decrements the count by one, so the loop drains the count to zero. -/
def down_trylock_drain : Nat → Nat
  | 0 => 0
  | n + 1 => down_trylock_drain n

/-- Observable final state of one execution of `handle_wasm_run_code`:
the outcome delivered to the caller, the final count of the handshake
semaphore `task.sem`, the executable bit of the engine's code buffer,
the value of the local `made_nx` flag, whether `ee_call0` was performed,
and the contents of the `task.ret` result slot (`none` = never
written). -/
structure run_result where
  outcome : run_outcome
  sem_final : Nat
  code_executable : Bool
  made_nx : Bool
  called_entry : Bool
  ret_slot : Option Nat
  deriving DecidableEq, Repr

/-- Model of `handle_wasm_run_code` from the uapi dispatch file.
`ready` is the session's ready flag, `code_x0` the executable bit of the
code buffer on entry, and `call_result` the oracle value returned by
`ee_call0` when it is performed and returns.  The control flow mirrors
the source:

    if(copy_from_user(...)) return -EFAULT;
    if(!sess->ready) return -EINVAL;
    sema_init(&task.sem, 0);
    runner_ts = kthread_create(...); if bad, return -EINVAL;
    wake_up_process(runner_ts);
    down(&task.sem);                          // consumes "started"
    if(down_interruptible(&task.sem) < 0) {   // wait for "finished"
        ee_make_code_nx(&sess->ee); made_nx = 1;
    }
    kthread_stop(runner_ts);                  // runner has exited here
    while(down_trylock(&task.sem) == 0);      // drain residual releases
    if(made_nx) ee_make_code_x(&sess->ee);
    return 0;

The runner (see `code_runner_inner`) releases the semaphore once for
"started", and once more for "finished" exactly when `param_count = 0`
and the entry call returns.  The controller's first `down` consumes the
"started" release.  The interruptible wait either is interrupted
(`env.interrupted`), or consumes a "finished" release when one arrives,
or blocks forever when no release ever arrives and no signal comes.
Releases counted in `ups` have all occurred by the time `kthread_stop`
returns, so the drain loop runs on the full residual count. -/
def handle_wasm_run_code (ready : Nat) (req : run_code_request)
    (env : run_env) (call_result : Nat) (code_x0 : Bool) : run_result :=
  if env.copy_fail then
    ⟨run_outcome.returned (-EFAULT), 0, code_x0, false, false, none⟩
  else if ready = 0 then
    ⟨run_outcome.returned (-EINVAL), 0, code_x0, false, false, none⟩
  else if env.kthread_fail then
    ⟨run_outcome.returned (-EINVAL), 0, code_x0, false, false, none⟩
  else
    let calls := req.param_count = 0
    let finishes := req.param_count = 0 ∧ env.callee_returns = true
    let ups := 1 + (if finishes then 1 else 0)
    let ret_slot := if finishes then some call_result else none
    if env.interrupted then
      -- forced termination: ee_make_code_nx, kthread_stop, drain, ee_make_code_x
      let downs := 1
      ⟨run_outcome.returned 0, down_trylock_drain (ups - downs),
        true, true, decide calls, ret_slot⟩
    else if finishes then
      -- normal completion: second down consumed the "finished" release
      let downs := 2
      ⟨run_outcome.returned 0, down_trylock_drain (ups - downs),
        code_x0, false, true, ret_slot⟩
    else
      -- no "finished" release ever arrives and no signal interrupts:
      -- the controller stays blocked in down_interruptible
      ⟨run_outcome.blocks_forever, ups - 1, code_x0, false,
        decide calls, ret_slot⟩

/-- Bit masking with the complement of the low 12 bits clears them:
for `n < 2 ^ 64`, `n &&& (2 ^ 64 - 4096)` is `n` rounded down to a
multiple of 4096. -/
theorem land_page_mask_eq (n : Nat) (h : n < 2 ^ 64) :
    n &&& (2 ^ 64 - 4096) = n / 4096 * 4096 := by
  have hmask : (2 : Nat) ^ 64 - 4096 = (2 ^ 52 - 1) <<< 12 := by
    norm_num [Nat.shiftLeft_eq]
  have hdiv : n / 4096 * 4096 = (n >>> 12) <<< 12 := by
    have : (4096 : Nat) = 2 ^ 12 := by norm_num
    rw [Nat.shiftLeft_eq, Nat.shiftRight_eq_div_pow, this]
  rw [hmask, hdiv]
  apply Nat.eq_of_testBit_eq
  intro i
  rw [Nat.testBit_land, Nat.testBit_shiftLeft, Nat.testBit_shiftLeft,
    Nat.testBit_shiftRight, Nat.testBit_two_pow_sub_one]
  by_cases h12 : 12 ≤ i
  · have hi : 12 + (i - 12) = i := by omega
    rw [hi]
    by_cases h64 : i < 64
    · have : i - 12 < 52 := by omega
      simp [h12, this, Bool.and_comm]
    · have hbit : n.testBit i = false := Nat.testBit_lt_two_pow
        (lt_of_lt_of_le h (Nat.pow_le_pow_right (by norm_num) (by omega)))
      have : ¬(i - 12 < 52) := by omega
      simp [hbit, this]
  · simp [h12]

/-- Characterization of `vmctx_get_memory_slice` on a well-formed memory
(no `unsigned long` overflow in the address arithmetic): it returns the
address `base + offset` exactly when `offset < bound` and
`offset + len ≤ bound`, and NULL otherwise. -/
theorem slice_characterization (base bound offset len : Nat)
    (hb : base + bound < ULONG_CARD) (ho : base + offset + len < ULONG_CARD) :
    vmctx_get_memory_slice ⟨some ⟨base, bound⟩⟩ offset len =
      if offset < bound ∧ offset + len ≤ bound then some (base + offset)
      else none := by
  have hcard : ULONG_CARD = 2 ^ 64 := rfl
  have h1 : base % ULONG_CARD = base := Nat.mod_eq_of_lt (by omega)
  simp only [vmctx_get_memory_slice, h1]
  have h2 : (base + offset) % ULONG_CARD = base + offset :=
    Nat.mod_eq_of_lt (by omega)
  have h3 : (base + offset + len) % ULONG_CARD = base + offset + len :=
    Nat.mod_eq_of_lt ho
  have h4 : (base + bound) % ULONG_CARD = base + bound := Nat.mod_eq_of_lt hb
  simp only [h2, h3, h4]
  by_cases hc : offset < bound ∧ offset + len ≤ bound
  · rw [if_neg (by omega), if_pos hc]
  · rw [if_pos (by omega), if_neg hc]

/-- Draining a semaphore with `down_trylock` until failure always leaves
count zero. -/
theorem down_trylock_drain_eq_zero (n : Nat) : down_trylock_drain n = 0 := by
  induction n with
  | zero => rfl
  | succ n ih => exact ih

/-- C1, counterexample: the claim "the slice is non-null iff
`offset + len ≤ bound` (as a 64-bit sum)" fails at the concrete input
`offset = bound = 4`, `len = 0` (base 4096): `offset + len = 4 ≤ 4`, yet
`vmctx_get_memory_slice` returns NULL because the code also rejects
`begin >= real_end`, which an empty slice starting exactly at the bound
triggers. -/
theorem C1_slice_claim_counterexample :
    ¬ ((vmctx_get_memory_slice ⟨some ⟨4096, 4⟩⟩ 4 0 ≠ none) ↔ 4 + 0 ≤ 4) := by
  decide

/-- C1, amended: for a well-formed memory (no 64-bit overflow in the
address arithmetic, which holds whenever `base + bound < 2 ^ 64` and
`base + 2 ^ 33 ≤ 2 ^ 64` with `offset, len < 2 ^ 32`),
`vmctx_get_memory_slice` returns non-NULL iff `offset + len ≤ bound`
AND `offset < bound`; in particular a nonempty range with
`offset + len = bound` succeeds and any range with
`offset + len = bound + 1` fails. -/
theorem C1_slice_bound_check (base bound offset len : Nat)
    (hb : base + bound < ULONG_CARD) (ho : base + offset + len < ULONG_CARD) :
    (vmctx_get_memory_slice ⟨some ⟨base, bound⟩⟩ offset len ≠ none ↔
      (offset + len ≤ bound ∧ offset < bound)) ∧
    (0 < len → offset + len = bound →
      vmctx_get_memory_slice ⟨some ⟨base, bound⟩⟩ offset len ≠ none) ∧
    (offset + len = bound + 1 →
      vmctx_get_memory_slice ⟨some ⟨base, bound⟩⟩ offset len = none) := by
  rw [slice_characterization base bound offset len hb ho]
  by_cases hc : offset < bound ∧ offset + len ≤ bound
  · rw [if_pos hc]
    refine ⟨by simp [hc], fun _ _ => by simp, fun h1 => by omega⟩
  · rw [if_neg hc]
    refine ⟨⟨fun h => absurd rfl h, fun h => absurd ⟨h.2, h.1⟩ hc⟩,
      fun h1 h2 => ?_, fun _ => rfl⟩
    exact absurd ⟨by omega, by omega⟩ hc

/-- C1, witness: instantiation of `C1_slice_bound_check` at base 4096,
bound 8, offset 4, len 4 — a nonempty slice ending exactly at the
bound. -/
theorem C1_slice_bound_check_witness :
    (vmctx_get_memory_slice ⟨some ⟨4096, 8⟩⟩ 4 4 ≠ none ↔
      (4 + 4 ≤ 8 ∧ 4 < 8)) ∧
    (0 < 4 → 4 + 4 = 8 →
      vmctx_get_memory_slice ⟨some ⟨4096, 8⟩⟩ 4 4 ≠ none) ∧
    (4 + 4 = 8 + 1 → vmctx_get_memory_slice ⟨some ⟨4096, 8⟩⟩ 4 4 = none) :=
  C1_slice_bound_check 4096 8 4 4 (by decide) (by decide)

/-- C9: `vmctx_get_memory_slice` is total (it is a Lean function), it
returns NULL whenever the context's `memories` field is NULL, and
whenever it returns a non-NULL pointer `p` (for a memory whose address
arithmetic cannot wrap), `p = base + offset` and the whole range
`[p, p + len)` lies inside `[base, base + bound)`. -/
theorem C9_slice_safety (ctx : vmctx) (offset len : Nat) :
    (ctx.memories = none → vmctx_get_memory_slice ctx offset len = none) ∧
    (∀ mem p, ctx.memories = some mem →
      mem.base + mem.bound < ULONG_CARD →
      mem.base + offset + len < ULONG_CARD →
      vmctx_get_memory_slice ctx offset len = some p →
      p = mem.base + offset ∧ mem.base ≤ p ∧
        p + len ≤ mem.base + mem.bound ∧ p < mem.base + mem.bound) := by
  constructor
  · intro h
    simp [vmctx_get_memory_slice, h]
  · intro mem p hmem hb ho hp
    obtain rfl : ctx = ⟨some mem⟩ := by
      cases ctx with
      | mk m => simp_all
    rw [slice_characterization mem.base mem.bound offset len hb ho] at hp
    by_cases hc : offset < mem.bound ∧ offset + len ≤ mem.bound
    · rw [if_pos hc] at hp
      obtain rfl : mem.base + offset = p := Option.some.inj hp
      refine ⟨rfl, by omega, by omega, by omega⟩
    · rw [if_neg hc] at hp
      exact absurd hp (by simp)

/-- C9, witness: instantiation of `C9_slice_safety` at a context with a
memory at base 4096 and bound 8, offset 2, len 3, which yields the
pointer 4098. -/
theorem C9_slice_safety_witness :
    4098 = 4096 + 2 ∧ 4096 ≤ 4098 ∧ 4098 + 3 ≤ 4096 + 8 ∧
      4098 < 4096 + 8 :=
  (C9_slice_safety ⟨some ⟨4096, 8⟩⟩ 2 3).2 ⟨4096, 8⟩ 4098 rfl (by decide)
    (by decide) (by decide)

/-- C10: for every `unsigned long` value `x` with
`x ≤ ULONG_MAX - 4095` (no wrap in `x + 4095`),
`round_up_to_page_size x` is the least multiple of 4096 that is at
least `x`: it is divisible by 4096, at least `x`, and less than
`x + 4096`. -/
theorem C10_round_up_to_page_size_correct (x : Nat)
    (h : x ≤ ULONG_CARD - 4096) :
    round_up_to_page_size x % 4096 = 0 ∧
    x ≤ round_up_to_page_size x ∧
    round_up_to_page_size x < x + 4096 := by
  have hcard : ULONG_CARD = 2 ^ 64 := rfl
  have h1 : x + 4095 < ULONG_CARD := by
    rw [hcard] at h ⊢
    omega
  unfold round_up_to_page_size
  rw [Nat.mod_eq_of_lt h1, hcard, land_page_mask_eq (x + 4095) (by omega)]
  omega

/-- C10, witness: instantiation of `C10_round_up_to_page_size_correct`
at `x = 5000`, whose rounding is 8192. -/
theorem C10_round_up_to_page_size_correct_witness :
    round_up_to_page_size 5000 % 4096 = 0 ∧
    5000 ≤ round_up_to_page_size 5000 ∧
    round_up_to_page_size 5000 < 5000 + 4096 :=
  C10_round_up_to_page_size_correct 5000 (by decide)

/-- C6: a load on a session that is already Ready (`ready ≠ 0`) fails
with `-EINVAL` (the code's encoding of AlreadyLoaded — the check is the
first statement of the handler) and returns the session completely
unchanged: the ready flag and every field of the existing engine are
untouched, for every engine representation, request and
`init_execution_engine` implementation. -/
theorem C6_load_on_ready_rejected {EE Req : Type}
    (init_execution_engine : Req → EE → Int × EE)
    (copy_fail : Bool) (req : Req) (sess : privileged_session EE)
    (h : sess.ready ≠ 0) :
    handle_wasm_load_code init_execution_engine copy_fail req sess =
      (-EINVAL, sess) := by
  unfold handle_wasm_load_code
  rw [if_pos h]

/-- C6, witness: instantiation of `C6_load_on_ready_rejected` with a
`Nat`-valued engine on a ready session holding engine value 7. -/
theorem C6_load_on_ready_rejected_witness :
    handle_wasm_load_code (fun (_ : Nat) (e : Nat) => (0, e)) false 3
        ⟨1, 7⟩ =
      (-EINVAL, (⟨1, 7⟩ : privileged_session Nat)) :=
  C6_load_on_ready_rejected (fun _ e => (0, e)) false 3 ⟨1, 7⟩ (by decide)

/-- C7: on an Unloaded session (`ready = 0`), a load that fails — the
request copy fails, or `init_execution_engine` returns a negative error
— returns a negative error code and leaves `ready = 0`, so the load can
be retried; and the session becomes Ready exactly when the copy succeeds
and `init_execution_engine` returns a non-negative value, in which case
the handler returns 0. -/
theorem C7_load_failure_leaves_unloaded {EE Req : Type}
    (init_execution_engine : Req → EE → Int × EE)
    (copy_fail : Bool) (req : Req) (sess : privileged_session EE)
    (h : sess.ready = 0) :
    (copy_fail = true ∨ (init_execution_engine req sess.ee).1 < 0 →
      (handle_wasm_load_code init_execution_engine copy_fail req sess).1
        < 0 ∧
      (handle_wasm_load_code init_execution_engine copy_fail req
        sess).2.ready = 0) ∧
    ((handle_wasm_load_code init_execution_engine copy_fail req
        sess).2.ready = 1 ↔
      copy_fail = false ∧ 0 ≤ (init_execution_engine req sess.ee).1) ∧
    ((handle_wasm_load_code init_execution_engine copy_fail req
        sess).2.ready = 1 →
      (handle_wasm_load_code init_execution_engine copy_fail req
        sess).1 = 0) := by
  have h0 : ¬sess.ready ≠ 0 := by omega
  cases copy_fail with
  | true =>
    have heq : handle_wasm_load_code init_execution_engine true req sess =
        (-EFAULT, sess) := by
      simp [handle_wasm_load_code, h0]
    rw [heq]
    refine ⟨fun _ => ⟨by norm_num [EFAULT], h⟩, ?_, ?_⟩ <;> simp [h]
  | false =>
    by_cases hinit : (init_execution_engine req sess.ee).1 < 0
    · have heq : handle_wasm_load_code init_execution_engine false req
          sess =
          ((init_execution_engine req sess.ee).1,
            { sess with ee := (init_execution_engine req sess.ee).2 }) := by
        simp [handle_wasm_load_code, h0, hinit]
      rw [heq]
      refine ⟨fun _ => ⟨hinit, h⟩, ?_, ?_⟩
      · simp only [h]
        constructor
        · intro h1
          omega
        · rintro ⟨-, h2⟩
          omega
      · intro h1
        simp [h] at h1
    · have heq : handle_wasm_load_code init_execution_engine false req
          sess =
          (0, ⟨1, (init_execution_engine req sess.ee).2⟩) := by
        simp [handle_wasm_load_code, h0, hinit]
      rw [heq]
      refine ⟨fun hor => ?_, ?_, fun _ => rfl⟩
      · rcases hor with hf | hlt
        · simp at hf
        · exact absurd hlt hinit
      · constructor
        · intro h1
          exact ⟨rfl, by omega⟩
        · intro h1
          rfl

/-- C7, witness: instantiation of `C7_load_failure_leaves_unloaded`
with a `Nat`-valued engine on an unloaded session, with an
`init_execution_engine` that fails with error -5: the load returns -5
and the session stays unloaded. -/
theorem C7_load_failure_leaves_unloaded_witness :
    (false = true ∨ ((fun (_ : Nat) (e : Nat) => ((-5 : Int), e)) 3
        (5 : Nat)).1 < 0 →
      (handle_wasm_load_code (fun (_ : Nat) (e : Nat) => ((-5 : Int), e))
        false 3 ⟨0, 5⟩).1 < 0 ∧
      (handle_wasm_load_code (fun (_ : Nat) (e : Nat) => ((-5 : Int), e))
        false 3 ⟨0, 5⟩).2.ready = 0) ∧
    ((handle_wasm_load_code (fun (_ : Nat) (e : Nat) => ((-5 : Int), e))
        false 3 ⟨0, 5⟩).2.ready = 1 ↔
      false = false ∧ 0 ≤ ((fun (_ : Nat) (e : Nat) => ((-5 : Int), e)) 3
        (5 : Nat)).1) ∧
    ((handle_wasm_load_code (fun (_ : Nat) (e : Nat) => ((-5 : Int), e))
        false 3 ⟨0, 5⟩).2.ready = 1 →
      (handle_wasm_load_code (fun (_ : Nat) (e : Nat) => ((-5 : Int), e))
        false 3 ⟨0, 5⟩).1 = 0) :=
  C7_load_failure_leaves_unloaded (fun _ e => ((-5 : Int), e)) false 3
    ⟨0, 5⟩ rfl

/-- C2, counterexample: on a normally completing run (ready session,
no failures, zero parameters, entry returns 42, no interruption) the
handler does not deliver the 64-bit value to the caller: its
caller-visible output is not `returned 42` — the handler always does
`return 0` and only logs `task.ret`, and the forced-termination path
also returns 0, so "terminated" is not a distinct caller-visible
outcome. -/
theorem C2_run_claim_counterexample :
    ¬((handle_wasm_run_code 1 ⟨0, 0⟩ ⟨false, false, false, true⟩ 42
        true).outcome = run_outcome.returned 42) := by
  decide

/-- C2, amended: on a ready session with no copy or thread-creation
failure, a normally completing run (zero parameters, entry call
returns, wait not interrupted) returns 0 to the caller while the
entry's 64-bit value is stored only in the task's `ret` slot (where it
is logged, not delivered); and a run whose wait is interrupted (forced
cancellation) also returns 0, so the caller cannot distinguish the two
outcomes from the handler's output. -/
theorem C2_run_output_is_zero (ready : Nat) (req : run_code_request)
    (env : run_env) (v : Nat) (b : Bool) (hready : ready ≠ 0)
    (hcf : env.copy_fail = false) (hkf : env.kthread_fail = false) :
    (req.param_count = 0 → env.callee_returns = true →
      env.interrupted = false →
      (handle_wasm_run_code ready req env v b).outcome =
        run_outcome.returned 0 ∧
      (handle_wasm_run_code ready req env v b).ret_slot = some v) ∧
    (env.interrupted = true →
      (handle_wasm_run_code ready req env v b).outcome =
        run_outcome.returned 0) := by
  constructor
  · intro hp hcr hi
    simp [handle_wasm_run_code, hcf, hkf, hi, hp, hcr, hready]
  · intro hi
    simp [handle_wasm_run_code, hcf, hkf, hi, hready]

/-- C2, witness: instantiation of `C2_run_output_is_zero` on a ready
session with entry value 42: the caller sees 0 and the value 42 stays
in the result slot. -/
theorem C2_run_output_is_zero_witness :
    (handle_wasm_run_code 1 ⟨0, 0⟩ ⟨false, false, false, true⟩ 42
        true).outcome = run_outcome.returned 0 ∧
    (handle_wasm_run_code 1 ⟨0, 0⟩ ⟨false, false, false, true⟩ 42
        true).ret_slot = some 42 :=
  (C2_run_output_is_zero 1 ⟨0, 0⟩ ⟨false, false, false, true⟩ 42 true
    (by decide) rfl rfl).1 rfl rfl rfl

/-- C3: evaluation of the model at the failing input — a ready session
and a run request with `param_count = 1`.  The runner never performs the
entry call (`call_entry` is not among its events), but contrary to the
claim no `InvalidRequest` error is returned: with no interruption the
controller blocks forever in its wait for the never-signalled
"finished" release, and if the wait is interrupted the handler returns
0, not `-EINVAL`. -/
theorem C3_nonzero_param_not_rejected :
    (handle_wasm_run_code 1 ⟨0, 1⟩ ⟨false, false, false, true⟩ 42
        true).outcome = run_outcome.blocks_forever ∧
    (handle_wasm_run_code 1 ⟨0, 1⟩ ⟨false, false, false, true⟩ 42
        true).called_entry = false ∧
    (handle_wasm_run_code 1 ⟨0, 1⟩ ⟨false, false, true, true⟩ 42
        true).outcome = run_outcome.returned 0 ∧
    runner_event.call_entry 0 ∉ code_runner_inner ⟨0, 1⟩ 42 := by
  decide

/-- C4: starting from an executable code buffer (the state a ready
session's load left it in), every path through `handle_wasm_run_code`
ends with the code buffer executable: the forced-termination path that
sets it non-executable (`made_nx`) always restores it with
`ee_make_code_x` before returning, and no other path touches it. -/
theorem C4_code_executable_on_exit (ready : Nat) (req : run_code_request)
    (env : run_env) (v : Nat) :
    (handle_wasm_run_code ready req env v true).code_executable = true := by
  simp only [handle_wasm_run_code]
  split_ifs <;> rfl

/-- C5: on every execution of `handle_wasm_run_code` that returns
(including the race in which a "finished" release arrives concurrently
with forced termination), the handshake semaphore ends with count zero:
the `down_trylock` drain loop consumes every residual release. -/
theorem C5_handshake_drained (ready : Nat) (req : run_code_request)
    (env : run_env) (v : Nat) (b : Bool)
    (h : (handle_wasm_run_code ready req env v b).outcome ≠
      run_outcome.blocks_forever) :
    (handle_wasm_run_code ready req env v b).sem_final = 0 := by
  by_cases hcf : env.copy_fail = true
  · simp [handle_wasm_run_code, hcf]
  by_cases hr : ready = 0
  · simp [handle_wasm_run_code, hcf, hr]
  by_cases hkf : env.kthread_fail = true
  · simp [handle_wasm_run_code, hcf, hr, hkf]
  by_cases hi : env.interrupted = true
  · simp [handle_wasm_run_code, hcf, hr, hkf, hi,
      down_trylock_drain_eq_zero]
  by_cases hfin : req.param_count = 0 ∧ env.callee_returns = true
  · simp [handle_wasm_run_code, hcf, hr, hkf, hi, hfin,
      down_trylock_drain_eq_zero]
  · exfalso
    apply h
    simp [handle_wasm_run_code, hcf, hr, hkf, hi, hfin]

/-- C5, witness: instantiation of `C5_handshake_drained` on the racing
path — the wait is interrupted while the entry call also returns, so
the runner's "finished" release is residual and gets drained. -/
theorem C5_handshake_drained_witness :
    (handle_wasm_run_code 1 ⟨0, 0⟩ ⟨false, false, true, true⟩ 42
        true).sem_final = 0 :=
  C5_handshake_drained 1 ⟨0, 0⟩ ⟨false, false, true, true⟩ 42 true
    (by decide)

/-- C8: for a normally completing run (zero parameters) the task body's
event sequence is exactly "signal started, perform the entry call,
store its result, signal finished" in that order — so "started" is
signalled strictly before the call and "finished" only after the
result is stored; and on every run (any parameter count), every
"finished" event is preceded by an earlier "started" event. -/
theorem C8_started_before_finished (req : run_code_request) (v : Nat) :
    (req.param_count = 0 →
      code_runner_inner req v =
        [runner_event.sig_started,
         runner_event.call_entry req.entry_offset,
         runner_event.store_result v,
         runner_event.sig_finished]) ∧
    (∀ i, (code_runner_inner req v).get? i =
        some runner_event.sig_finished →
      ∃ j, j < i ∧ (code_runner_inner req v).get? j =
        some runner_event.sig_started) := by
  constructor
  · intro hp
    simp [code_runner_inner, hp]
  · intro i hi
    by_cases hp : req.param_count = 0
    · refine ⟨0, ?_, by simp [code_runner_inner, hp]⟩
      simp only [code_runner_inner, hp] at hi
      match i with
      | 0 | 1 | 2 => simp_all
      | 3 => omega
      | n + 4 => simp at hi
    · exfalso
      simp only [code_runner_inner, hp] at hi
      match i with
      | 0 => simp_all
      | n + 1 => simp [hp] at hi

/-- C8, witness: instantiation of `C8_started_before_finished` at a
zero-parameter request with entry offset 7 and result 42: the trace is
the four ordered events, and the "finished" event at index 3 has a
"started" event strictly before it. -/
theorem C8_started_before_finished_witness :
    code_runner_inner ⟨7, 0⟩ 42 =
      [runner_event.sig_started, runner_event.call_entry 7,
       runner_event.store_result 42, runner_event.sig_finished] ∧
    (∃ j, j < 3 ∧ (code_runner_inner ⟨7, 0⟩ 42).get? j =
      some runner_event.sig_started) :=
  ⟨(C8_started_before_finished ⟨7, 0⟩ 42).1 rfl,
    (C8_started_before_finished ⟨7, 0⟩ 42).2 3 (by decide)⟩

end KernelWasm
